import Mathlib

/-!
Shallow embedding of the operational data plane of a conversational
assistant backend: a key/value cache with TTL and a fixed-window rate
limiter (redis_client.py), and a full-text search index
(elasticsearch_client.py).  State is passed explicitly; a transport
failure of a backing store is modelled by a reachability flag `up`,
mirroring the try/except blocks that catch every exception at the
component boundary in the source.
-/

namespace DataPlane

/-! ## Key/value store model (redis_client.py)

The backing store maps string keys to string values, each with an
optional absolute expiry time in seconds.  A key is live at time `now`
when it has no expiry or `now` is strictly before its expiry. -/

/-- One stored binding: key, value, optional absolute expiry time. -/
structure Binding where
  key : String
  value : String
  expireAt : Option Nat
deriving Repr, DecidableEq

/-- The raw key/value store state; set replaces, so keys stay unique. -/
abbrev RStore := List Binding

/-- Whether a binding is live at time `now` (TTL semantics of the store). -/
def Binding.live (b : Binding) (now : Nat) : Bool :=
  match b.expireAt with
  | none => true
  | some t => now < t

/-- First binding for a key, if any. -/
def lookupB : RStore → String → Option Binding
  | [], _ => none
  | b :: rest, k => if b.key = k then some b else lookupB rest k

/-- Remove every binding for a key. -/
def removeKey : RStore → String → RStore
  | [], _ => []
  | b :: rest, k => if b.key = k then removeKey rest k else b :: removeKey rest k

/-- How many bindings a key has (used for the DEL return value). -/
def countKey : RStore → String → Nat
  | [], _ => 0
  | b :: rest, k => if b.key = k then countKey rest k + 1 else countKey rest k

/-- Raw GET: the value bound to the key when present and not expired. -/
def getRaw (st : RStore) (now : Nat) (k : String) : Option String :=
  match lookupB st k with
  | some b => if b.live now then some b.value else none
  | none => none

/-- Raw SET without expiry. -/
def setRaw (st : RStore) (k v : String) : RStore :=
  ⟨k, v, none⟩ :: removeKey st k

/-- Raw SETEX: set with a relative TTL, the expiry fixed at write time. -/
def setexRaw (st : RStore) (now : Nat) (k : String) (ttl : Nat) (v : String) : RStore :=
  ⟨k, v, some (now + ttl)⟩ :: removeKey st k

/-- Raw DEL: how many keys were removed, and the new state. -/
def delRaw (st : RStore) (k : String) : Nat × RStore :=
  (countKey st k, removeKey st k)

/-- Raw EXISTS: how many of the given keys currently exist. -/
def existsRaw (st : RStore) (now : Nat) (k : String) : Nat :=
  match getRaw st now k with
  | some _ => 1
  | none => 0

/-- Truthiness of an optional natural-number argument as Python evaluates
it: None and 0 are falsy. -/
def truthyNat : Option Nat → Bool
  | none => false
  | some n => n != 0

/-- RedisClient.get: a transport failure is caught and reported as a miss. -/
def RedisClient.get (up : Bool) (st : RStore) (now : Nat) (key : String) : Option String :=
  if up then getRaw st now key else none

/-- RedisClient.set: SETEX when the ttl argument is truthy, plain SET
otherwise; a transport failure is caught and reported as false, leaving
the store unchanged. -/
def RedisClient.set (up : Bool) (st : RStore) (now : Nat) (key v : String)
    (ttl : Option Nat) : Bool × RStore :=
  if up then
    if truthyNat ttl then (true, setexRaw st now key (ttl.getD 0) v)
    else (true, setRaw st key v)
  else (false, st)

/-- RedisClient.delete: true iff at least one key was removed; a
transport failure is caught and reported as false. -/
def RedisClient.delete (up : Bool) (st : RStore) (key : String) : Bool × RStore :=
  if up then
    let r := delRaw st key
    (decide (0 < r.1), r.2)
  else (false, st)

/-- RedisClient.exists: true iff the key exists; a transport failure is
caught and reported as false. -/
def RedisClient.existsQ (up : Bool) (st : RStore) (now : Nat) (key : String) : Bool :=
  if up then decide (0 < existsRaw st now key) else false

/-! ## Rate limiting (RedisClient.check_rate_limit) -/

/-- Configuration: base requests per minute and burst allowance. -/
structure RateConfig where
  rate_limit_rpm : Nat
  rate_limit_burst : Nat
deriving Repr, DecidableEq

/-- The environment defaults: 60 requests per minute plus 10 burst. -/
def defaultRateConfig : RateConfig := ⟨60, 10⟩

/-- Counter store: rate-limit keys with their integer counters.  Window
expiry is represented by the emitted EXPIRE command; the scenarios the
claims quantify over stay inside one minute bucket, where the 60-second
TTL set at the first increment cannot yet have elapsed. -/
abbrev CounterStore := List (String × Nat)

/-- Current counter of a key (a missing key counts as 0, as INCR sees it). -/
def getCounter : CounterStore → String → Nat
  | [], _ => 0
  | p :: rest, key => if p.1 = key then p.2 else getCounter rest key

/-- Store a counter value for a key. -/
def setCounter : CounterStore → String → Nat → CounterStore
  | [], key, v => [(key, v)]
  | p :: rest, key, v =>
    if p.1 = key then (key, v) :: rest else p :: setCounter rest key v

/-- Commands the limiter issues to the backing store. -/
inductive RCmd where
  | incr (key : String)
  | expire (key : String) (seconds : Nat)
deriving Repr, DecidableEq

/-- The rate-limit key for an identifier, endpoint and minute bucket. -/
def rateKeyM (identifier endpoint : String) (minute : Nat) : String :=
  "rate:" ++ identifier ++ ":" ++ endpoint ++ ":" ++ toString minute

/-- The key used at wall-clock second `now`: the minute bucket is now / 60. -/
def rateKey (identifier endpoint : String) (now : Nat) : String :=
  rateKeyM identifier endpoint (now / 60)

/-- Result of check_rate_limit: the returned pair, the new counter store
and the commands issued. -/
structure RLOut where
  allowed : Bool
  remaining : Int
  store : CounterStore
  trace : List RCmd
deriving Repr, DecidableEq

/-- RedisClient.check_rate_limit: INCR the per-minute counter; when the
post-increment value equals 1, EXPIRE the key after 60 seconds; allow
while the counter is at most base plus burst, reporting
max 0 (limit - counter) as remaining.  On a transport failure the
exception is caught and the request is allowed with the full base limit
reported as remaining (fail open). -/
def check_rate_limit (cfg : RateConfig) (up : Bool) (identifier endpoint : String)
    (now : Nat) (st : CounterStore) : RLOut :=
  let key := rateKey identifier endpoint now
  if up then
    let current_count := getCounter st key + 1
    let st1 := setCounter st key current_count
    let expireCmds := if current_count = 1 then [RCmd.expire key 60] else []
    let limit : Int := cfg.rate_limit_rpm + cfg.rate_limit_burst
    let allowed := decide ((current_count : Int) ≤ limit)
    let remaining := max 0 (limit - current_count)
    ⟨allowed, remaining, st1, RCmd.incr key :: expireCmds⟩
  else
    ⟨true, cfg.rate_limit_rpm, st, []⟩

/-- Sequentially run one check per timestamp, threading the store. -/
def runChecks (cfg : RateConfig) (up : Bool) (identifier endpoint : String)
    (ts : List Nat) (st : CounterStore) : CounterStore :=
  ts.foldl (fun s t => (check_rate_limit cfg up identifier endpoint t s).store) st

/-! ## MD5 (hashlib.md5), used for content-derived cache keys -/

/-- Truncation to a 32-bit word. -/
def w32 (n : Nat) : Nat := n % 4294967296

/-- 32-bit left rotation. -/
def rotl32 (x n : Nat) : Nat :=
  w32 (x <<< n) ||| (x >>> (32 - n))

/-- Per-round shift amounts of MD5. -/
def md5s : List Nat :=
  [7, 12, 17, 22, 7, 12, 17, 22, 7, 12, 17, 22, 7, 12, 17, 22,
   5, 9, 14, 20, 5, 9, 14, 20, 5, 9, 14, 20, 5, 9, 14, 20,
   4, 11, 16, 23, 4, 11, 16, 23, 4, 11, 16, 23, 4, 11, 16, 23,
   6, 10, 15, 21, 6, 10, 15, 21, 6, 10, 15, 21, 6, 10, 15, 21]

/-- Round constants of MD5: integer parts of 2^32 times the absolute
sines of 1..64. -/
def md5K : List Nat :=
  [3614090360, 3905402710, 606105819, 3250441966,
   4118548399, 1200080426, 2821735955, 4249261313,
   1770035416, 2336552879, 4294925233, 2304563134,
   1804603682, 4254626195, 2792965006, 1236535329,
   4129170786, 3225465664, 643717713, 3921069994,
   3593408605, 38016083, 3634488961, 3889429448,
   568446438, 3275163606, 4107603335, 1163531501,
   2850285829, 4243563512, 1735328473, 2368359562,
   4294588738, 2272392833, 1839030562, 4259657740,
   2763975236, 1272893353, 4139469664, 3200236656,
   681279174, 3936430074, 3572445317, 76029189,
   3654602809, 3873151461, 530742520, 3299628645,
   4096336452, 1126891415, 2878612391, 4237533241,
   1700485571, 2399980690, 4293915773, 2240044497,
   1873313359, 4264355552, 2734768916, 1309151649,
   4149444226, 3174756917, 718787259, 3951481745]

/-- Little-endian byte rendering of a value, with the given byte width. -/
def leBytes : Nat → Nat → List Nat
  | 0, _ => []
  | w + 1, n => (n % 256) :: leBytes w (n / 256)

/-- Group a byte list into little-endian 32-bit words, four bytes each. -/
def toWords : List Nat → List Nat
  | a :: b :: c :: d :: rest => (a + 256 * b + 65536 * c + 16777216 * d) :: toWords rest
  | _ => []

/-- Split a byte list into 64-byte chunks, with fuel for structural
recursion; one byte of fuel per input byte always suffices. -/
def chunks64Fuel : Nat → List Nat → List (List Nat)
  | 0, _ => []
  | fuel + 1, bs => if bs = [] then [] else bs.take 64 :: chunks64Fuel fuel (bs.drop 64)

/-- Split a byte list into 64-byte chunks. -/
def chunks64 (bs : List Nat) : List (List Nat) :=
  chunks64Fuel bs.length bs

/-- MD5 padding: append the 0x80 marker, zero-pad to 56 modulo 64, then
the original bit length as eight little-endian bytes. -/
def md5pad (msg : List Nat) : List Nat :=
  let zeros := (56 + 64 - (msg.length + 1) % 64) % 64
  msg ++ [128] ++ List.replicate zeros 0 ++ leBytes 8 (8 * msg.length)

/-- One MD5 round on the running state (a, b, c, d). -/
def md5round (M : List Nat) (st : Nat × Nat × Nat × Nat) (i : Nat) :
    Nat × Nat × Nat × Nat :=
  let a := st.1
  let b := st.2.1
  let c := st.2.2.1
  let d := st.2.2.2
  let F :=
    if i < 16 then (b &&& c) ||| ((4294967295 ^^^ b) &&& d)
    else if i < 32 then (d &&& b) ||| ((4294967295 ^^^ d) &&& c)
    else if i < 48 then b ^^^ c ^^^ d
    else c ^^^ (b ||| (4294967295 ^^^ d))
  let g :=
    if i < 16 then i
    else if i < 32 then (5 * i + 1) % 16
    else if i < 48 then (3 * i + 5) % 16
    else (7 * i) % 16
  let F2 := w32 (F + a + md5K.getD i 0 + M.getD g 0)
  (d, w32 (b + rotl32 F2 (md5s.getD i 0)), b, c)

/-- Process one 64-byte chunk, adding the round output to the state. -/
def md5chunk (st0 : Nat × Nat × Nat × Nat) (chunk : List Nat) :
    Nat × Nat × Nat × Nat :=
  let M := toWords chunk
  let r := (List.range 64).foldl (md5round M) st0
  (w32 (st0.1 + r.1), w32 (st0.2.1 + r.2.1),
   w32 (st0.2.2.1 + r.2.2.1), w32 (st0.2.2.2 + r.2.2.2))

/-- The sixteen digest bytes of a message given as bytes. -/
def md5bytes (msg : List Nat) : List Nat :=
  let r := (chunks64 (md5pad msg)).foldl md5chunk
    (1732584193, 4023233417, 2562383102, 271733878)
  leBytes 4 r.1 ++ leBytes 4 r.2.1 ++ leBytes 4 r.2.2.1 ++ leBytes 4 r.2.2.2

/-- A lowercase hexadecimal digit. -/
def hexDigit (n : Nat) : Char :=
  if n < 10 then Char.ofNat (48 + n) else Char.ofNat (87 + n)

/-- Two-digit lowercase hexadecimal rendering of one byte. -/
def byteHex (b : Nat) : String :=
  String.mk [hexDigit (b / 16), hexDigit (b % 16)]

/-- Lowercase hexadecimal MD5 digest of a byte message. -/
def md5hex (msg : List Nat) : String :=
  String.join ((md5bytes msg).map byteHex)

/-- UTF-8 encoding of one character (str.encode in the source). -/
def encodeChar (c : Char) : List Nat :=
  let n := c.toNat
  if n < 128 then [n]
  else if n < 2048 then [192 ||| (n >>> 6), 128 ||| (n &&& 63)]
  else if n < 65536 then
    [224 ||| (n >>> 12), 128 ||| ((n >>> 6) &&& 63), 128 ||| (n &&& 63)]
  else
    [240 ||| (n >>> 18), 128 ||| ((n >>> 12) &&& 63),
     128 ||| ((n >>> 6) &&& 63), 128 ||| (n &&& 63)]

/-- UTF-8 bytes of a string. -/
def strBytes (s : String) : List Nat :=
  s.data.foldr (fun c acc => encodeChar c ++ acc) []

/-! ## Conversation snapshot and LLM response caches (redis_client.py)

Message snapshots are projected to their integer ids, so the JSON value
cached for a conversation is a serialized list of integers. -/

/-- Default TTL for conversation snapshots (CACHE_TTL_CONVERSATIONS). -/
def ttl_conversations : Nat := 600

/-- Default TTL for memoized LLM responses (CACHE_TTL_LLM_RESPONSES). -/
def ttl_llm_responses : Nat := 3600

/-- Key namespace for conversation snapshots. -/
def convKey (conversation_id : Int) : String :=
  "conv:" ++ toString conversation_id ++ ":messages"

/-- Serialization of the cached message list, as json.dumps renders a
list of integers. -/
def json_dumps (messages : List Int) : String :=
  "[" ++ String.intercalate ", " (messages.map toString) ++ "]"

/-- Deserialization of a cached message list (json.loads restricted to
the grammar json_dumps emits); a parse failure is reported as none. -/
def json_loads (s : String) : Option (List Int) :=
  if s = "[]" then some [] else
  if s.startsWith "[" && s.endsWith "]" then
    ((s.drop 1).dropRight 1).splitOn ", " |>.mapM String.toInt?
  else none

/-- RedisClient.cache_conversation: store the serialized snapshot under
the conversation key with the conversation TTL. -/
def cache_conversation (up : Bool) (st : RStore) (now : Nat) (conversation_id : Int)
    (messages : List Int) : Bool × RStore :=
  RedisClient.set up st now (convKey conversation_id) (json_dumps messages)
    (some ttl_conversations)

/-- RedisClient.get_cached_conversation: a falsy (absent or empty) cached
value yields none; otherwise the cached string is deserialized, a
failure being caught as none. -/
def get_cached_conversation (up : Bool) (st : RStore) (now : Nat)
    (conversation_id : Int) : Option (List Int) :=
  match RedisClient.get up st now (convKey conversation_id) with
  | some cached => if cached != "" then json_loads cached else none
  | none => none

/-- RedisClient.invalidate_conversation: delete the snapshot key. -/
def invalidate_conversation (up : Bool) (st : RStore) (conversation_id : Int) :
    Bool × RStore :=
  RedisClient.delete up st (convKey conversation_id)

/-- RedisClient._generate_llm_cache_key: hex MD5 digest of the prompt and
context joined with a colon (an f-string with a ":" separator). -/
def generate_llm_cache_key (prompt ctx : String) : String :=
  md5hex (strBytes (prompt ++ ":" ++ ctx))

/-- The full storage key both LLM cache operations derive. -/
def llmKey (prompt ctx : String) : String :=
  "llm:response:" ++ generate_llm_cache_key prompt ctx

/-- RedisClient.cache_llm_response: store the response under the derived
key with the LLM TTL. -/
def cache_llm_response (up : Bool) (st : RStore) (now : Nat)
    (prompt ctx response : String) : Bool × RStore :=
  RedisClient.set up st now (llmKey prompt ctx) response (some ttl_llm_responses)

/-- RedisClient.get_cached_llm_response: look up the derived key. -/
def get_cached_llm_response (up : Bool) (st : RStore) (now : Nat)
    (prompt ctx : String) : Option String :=
  RedisClient.get up st now (llmKey prompt ctx)

/-! ## Search index model (elasticsearch_client.py)

The engine holds two collections of documents.  Full-text relevance
matching is external to this code base and is abstracted as a Boolean
predicate parameter; exact-match filters, the cascade delete and the
degraded-mode returns are modelled from the source. -/

/-- A message document of the messages collection. -/
structure MsgDoc where
  id : Int
  conversation_id : Int
  use_case_id : Int
  role : String
  content : String
  created_at : String
deriving Repr, DecidableEq

/-- A conversation document of the conversations collection. -/
structure ConvDoc where
  conversation_id : Int
  use_case_id : Int
  title : String
  created_at : String
  updated_at : String
  message_count : Nat
deriving Repr, DecidableEq

/-- The two collections managed by the client. -/
structure ESState where
  messages : List MsgDoc
  conversations : List ConvDoc
deriving Repr, DecidableEq

/-- Truthiness of an optional integer argument (None and 0 are falsy). -/
def truthyInt : Option Int → Bool
  | none => false
  | some n => n != 0

/-- Truthiness of an optional string argument (None and "" are falsy). -/
def truthyStr : Option String → Bool
  | none => false
  | some s => s != ""

/-- An exact-match or range filter clause of a message query. -/
inductive Clause where
  | termUseCase (n : Int)
  | termConversation (n : Int)
  | termRole (r : String)
  | rangeCreated (gte lte : Option String)
deriving Repr, DecidableEq

/-- The filter list search_messages builds: each filter is appended only
when the corresponding argument is truthy; the date range carries a
bound only for a truthy date argument. -/
def buildMsgFilters (use_case_id conversation_id : Option Int)
    (role from_date to_date : Option String) : List Clause :=
  (if truthyInt use_case_id then [Clause.termUseCase (use_case_id.getD 0)] else []) ++
  (if truthyInt conversation_id then [Clause.termConversation (conversation_id.getD 0)] else []) ++
  (if truthyStr role then [Clause.termRole (role.getD "")] else []) ++
  (if truthyStr from_date || truthyStr to_date then
    [Clause.rangeCreated (if truthyStr from_date then from_date else none)
      (if truthyStr to_date then to_date else none)] else [])

/-- Whether a message document satisfies a filter clause; the inclusive
timestamp range uses the engine's date ordering, modelled as the
lexicographic order on ISO-format timestamp strings. -/
def evalClause (d : MsgDoc) : Clause → Bool
  | Clause.termUseCase n => d.use_case_id == n
  | Clause.termConversation n => d.conversation_id == n
  | Clause.termRole r => d.role == r
  | Clause.rangeCreated gte lte =>
    (match gte with | some a => decide (a ≤ d.created_at) | none => true) &&
    (match lte with | some b => decide (d.created_at ≤ b) | none => true)

/-- Result shape of the search operations: total match count and the
returned page of hits. -/
structure SearchHits (α : Type) where
  total : Nat
  hits : List α
deriving Repr, DecidableEq

/-- Insert into a sorted list, keeping earlier elements first on ties. -/
def insertBy {α : Type} (le : α → α → Bool) (a : α) : List α → List α
  | [] => [a]
  | b :: rest => if le a b then a :: b :: rest else b :: insertBy le a rest

/-- Stable insertion sort, modelling the engine's sort clause. -/
def sortBy {α : Type} (le : α → α → Bool) : List α → List α
  | [] => []
  | a :: rest => insertBy le a (sortBy le rest)

/-- The combined match predicate of search_messages: the must clause
(full text when the query is truthy, match_all otherwise) and every
filter clause. -/
def msgPred (textMatch : String → String → Bool) (query : String)
    (clauses : List Clause) (d : MsgDoc) : Bool :=
  (if query != "" then textMatch query d.content else true) &&
  clauses.all (evalClause d)

/-- ElasticsearchClient.search_messages: full-text must clause (or
match_all when the query string is falsy), truthiness-gated filters,
newest-first sort and pagination; any transport or query error is caught
and yields the empty result. -/
def search_messages (up : Bool) (textMatch : String → String → Bool) (st : ESState)
    (query : String) (use_case_id conversation_id : Option Int)
    (role from_date to_date : Option String) (size fromPos : Nat) : SearchHits MsgDoc :=
  if up then
    let clauses := buildMsgFilters use_case_id conversation_id role from_date to_date
    let hitsAll := st.messages.filter (msgPred textMatch query clauses)
    let sorted := sortBy (fun a b => decide (b.created_at ≤ a.created_at)) hitsAll
    ⟨hitsAll.length, (sorted.drop fromPos).take size⟩
  else ⟨0, []⟩

/-- ElasticsearchClient.search_conversations: always-present title must
clause, truthiness-gated use-case filter, recency sort, page of `size`;
errors are caught and yield the empty result. -/
def search_conversations (up : Bool) (titleMatch : String → String → Bool)
    (st : ESState) (query : String) (use_case_id : Option Int) (size : Nat) :
    SearchHits ConvDoc :=
  if up then
    let hitsAll := st.conversations.filter (fun c =>
      titleMatch query c.title &&
      (if truthyInt use_case_id then c.use_case_id == use_case_id.getD 0 else true))
    let sorted := sortBy (fun a b => decide (b.updated_at ≤ a.updated_at)) hitsAll
    ⟨hitsAll.length, sorted.take size⟩
  else ⟨0, []⟩

/-- ElasticsearchClient.suggest_conversations: completion suggester over
titles, duplicates skipped, at most `size` options; errors are caught
and yield the empty list. -/
def suggest_conversations (up : Bool) (st : ESState) (pfx : String) (size : Nat) :
    List String :=
  if up then
    (((st.conversations.map ConvDoc.title).filter (fun t => t.startsWith pfx)).dedup).take size
  else []

/-- Aggregation buckets of the daily histogram: distinct day prefixes of
created_at with their counts. -/
def dayBuckets (docs : List MsgDoc) : List (String × Nat) :=
  ((docs.map (fun d => d.created_at.take 10)).dedup).map
    (fun day => (day, (docs.filter (fun d => d.created_at.take 10 == day)).length))

/-- Aggregation buckets of the per-role term counts. -/
def roleBuckets (docs : List MsgDoc) : List (String × Nat) :=
  ((docs.map MsgDoc.role).dedup).map
    (fun r => (r, (docs.filter (fun d => d.role == r)).length))

/-- Result shape of get_message_stats. -/
structure StatsResult where
  total_messages : Nat
  messages_per_day : List (String × Nat)
  messages_by_role : List (String × Nat)
  total_conversations : Nat
deriving Repr, DecidableEq

/-- ElasticsearchClient.get_message_stats: aggregations over the message
collection, filtered by a truthy use_case_id; errors are caught and
yield the empty dictionary, modelled as none. -/
def get_message_stats (up : Bool) (st : ESState) (use_case_id : Option Int) :
    Option StatsResult :=
  if up then
    let docs := st.messages.filter (fun d =>
      if truthyInt use_case_id then d.use_case_id == use_case_id.getD 0 else true)
    some ⟨docs.length, dayBuckets docs, roleBuckets docs,
      ((docs.map MsgDoc.conversation_id).dedup).length⟩
  else none

/-- Commands issued to the search engine by the cascade delete. -/
inductive ESCmd where
  | deleteDoc (index : String) (docId : Int)
  | deleteByQueryTerm (index : String) (field : String) (v : Int)
deriving Repr, DecidableEq

/-- ElasticsearchClient.delete_conversation: delete the conversation
document (a missing document is ignored), then delete by query every
message whose conversation_id equals the id; an error is caught and
reported as false with the collections unchanged. -/
def delete_conversation (up : Bool) (st : ESState) (conversation_id : Int) :
    Bool × ESState × List ESCmd :=
  if up then
    let st1 : ESState :=
      ⟨st.messages, st.conversations.filter (fun c => c.conversation_id != conversation_id)⟩
    let st2 : ESState :=
      ⟨st1.messages.filter (fun m => m.conversation_id != conversation_id), st1.conversations⟩
    (true, st2, [ESCmd.deleteDoc "conversations" conversation_id,
      ESCmd.deleteByQueryTerm "messages" "conversation_id" conversation_id])
  else (false, st, [])

/-- An input row of bulk_index_messages; `indexable` models whether the
engine accepts the rendered action (a malformed document is rejected per
action by the bulk helper, which is invoked with raising on per-document
errors disabled, so one rejection does not abort the rest). -/
structure BulkMsg where
  id : Int
  conversation_id : Int
  use_case_id : Int
  role : String
  content : String
  created_at : String
  indexable : Bool
deriving Repr, DecidableEq

/-- The message document rendered from a bulk input row. -/
def BulkMsg.toDoc (m : BulkMsg) : MsgDoc :=
  ⟨m.id, m.conversation_id, m.use_case_id, m.role, m.content, m.created_at⟩

/-- Idempotent upsert of a document keyed by its external id. -/
def upsertMsg (docs : List MsgDoc) (d : MsgDoc) : List MsgDoc :=
  if docs.any (fun e => e.id == d.id) then
    docs.map (fun e => if e.id == d.id then d else e)
  else docs ++ [d]

/-- ElasticsearchClient.bulk_index_messages: one action per input row,
submitted in a single bulk call whose per-document failures do not raise;
returns (success_count, error_count).  An empty input returns (0, 0); a
transport failure is caught and returns (0, N). -/
def bulk_index_messages (up : Bool) (docs : List MsgDoc) (messages : List BulkMsg) :
    (Nat × Nat) × List MsgDoc :=
  if messages.isEmpty then ((0, 0), docs)
  else if up then
    let ok := messages.filter (fun m => m.indexable)
    let failed := messages.filter (fun m => !m.indexable)
    ((ok.length, failed.length), ok.foldl (fun acc m => upsertMsg acc m.toDoc) docs)
  else ((0, messages.length), docs)

/-! ## Support lemmas -/

/-- A stored counter reads back as stored. -/
theorem getCounter_setCounter_self (st : CounterStore) (k : String) (v : Nat) :
    getCounter (setCounter st k v) k = v := by
  induction st with
  | nil => simp [setCounter, getCounter]
  | cons p rest ih =>
    by_cases h : p.1 = k
    · simp [setCounter, getCounter, h]
    · simp [setCounter, getCounter, h, ih]

/-- The reachable branch of check_rate_limit, written out. -/
theorem check_rate_limit_up (cfg : RateConfig) (identifier endpoint : String)
    (now : Nat) (st : CounterStore) :
    check_rate_limit cfg true identifier endpoint now st =
      ⟨decide ((getCounter st (rateKey identifier endpoint now) + 1 : Nat) ≤
          ((cfg.rate_limit_rpm : Int) + cfg.rate_limit_burst)),
        max 0 ((cfg.rate_limit_rpm : Int) + cfg.rate_limit_burst -
          (getCounter st (rateKey identifier endpoint now) + 1 : Nat)),
        setCounter st (rateKey identifier endpoint now)
          (getCounter st (rateKey identifier endpoint now) + 1),
        RCmd.incr (rateKey identifier endpoint now) ::
          (if getCounter st (rateKey identifier endpoint now) + 1 = 1 then
            [RCmd.expire (rateKey identifier endpoint now) 60] else [])⟩ :=
  rfl

/-- The per-minute counter after a run of same-minute checks from any
starting store has grown by the number of checks. -/
theorem getCounter_runChecks (cfg : RateConfig) (identifier endpoint : String)
    (m : Nat) (ts : List Nat) (st : CounterStore)
    (h : ∀ t ∈ ts, t / 60 = m) :
    getCounter (runChecks cfg true identifier endpoint ts st)
        (rateKeyM identifier endpoint m)
      = getCounter st (rateKeyM identifier endpoint m) + ts.length := by
  induction ts generalizing st with
  | nil => simp [runChecks]
  | cons t rest ih =>
    have hm : rateKey identifier endpoint t = rateKeyM identifier endpoint m := by
      simp [rateKey, h t (by simp)]
    have hstep : runChecks cfg true identifier endpoint (t :: rest) st =
        runChecks cfg true identifier endpoint rest
          (setCounter st (rateKey identifier endpoint t)
            (getCounter st (rateKey identifier endpoint t) + 1)) := rfl
    rw [hstep, ih _ (fun u hu => h u (by simp [hu])), hm, getCounter_setCounter_self]
    simp [List.length_cons]
    omega

/-- After removing a key, looking it up misses. -/
theorem lookupB_removeKey (st : RStore) (k : String) :
    lookupB (removeKey st k) k = none := by
  induction st with
  | nil => rfl
  | cons b rest ih =>
    by_cases h : b.key = k
    · simp [removeKey, h, ih]
    · simp [removeKey, lookupB, h, ih]

/-- After removing a key, its binding count is zero. -/
theorem countKey_removeKey (st : RStore) (k : String) :
    countKey (removeKey st k) k = 0 := by
  induction st with
  | nil => rfl
  | cons b rest ih =>
    by_cases h : b.key = k
    · simp [removeKey, h, ih]
    · simp [removeKey, countKey, h, ih]

/-! ## Claims about the rate limiter and the key/value cache -/

/-- C1: with the backing store reachable, the Nth check_rate_limit call
for one identity and endpoint within one wall-clock minute bucket is
allowed iff N ≤ base + burst = 60 + 10 = 70, with
remaining = max 0 (70 - N); in particular the first 70 calls are allowed
and the 71st onward denied with remaining 0. -/
theorem C1_rate_limit_nth_call (identifier endpoint : String) (ts : List Nat)
    (tN m N : Nat) (hts : ∀ t ∈ ts, t / 60 = m) (htN : tN / 60 = m)
    (hN : N = ts.length + 1) :
    (check_rate_limit defaultRateConfig true identifier endpoint tN
        (runChecks defaultRateConfig true identifier endpoint ts [])).allowed
      = decide (N ≤ 70) ∧
    (check_rate_limit defaultRateConfig true identifier endpoint tN
        (runChecks defaultRateConfig true identifier endpoint ts [])).remaining
      = max 0 (70 - (N : Int)) := by
  subst hN
  have hkey : rateKey identifier endpoint tN = rateKeyM identifier endpoint m := by
    simp [rateKey, htN]
  have hcnt : getCounter (runChecks defaultRateConfig true identifier endpoint ts [])
      (rateKey identifier endpoint tN) = ts.length := by
    rw [hkey]
    simpa [getCounter] using
      getCounter_runChecks defaultRateConfig identifier endpoint m ts [] hts
  rw [check_rate_limit_up]
  refine ⟨?_, ?_⟩
  · simp only [hcnt]
    simp only [defaultRateConfig]
    rw [decide_eq_decide]
    omega
  · simp only [hcnt]
    simp only [defaultRateConfig]
    omega

/-- Witness for C1: the 71st same-minute call is denied with remaining 0. -/
theorem C1_rate_limit_nth_call_witness :
    (check_rate_limit defaultRateConfig true "user" "api" 59
        (runChecks defaultRateConfig true "user" "api" (List.replicate 70 0) [])).allowed
      = decide ((71 : Nat) ≤ 70) ∧
    (check_rate_limit defaultRateConfig true "user" "api" 59
        (runChecks defaultRateConfig true "user" "api" (List.replicate 70 0) [])).remaining
      = max 0 (70 - ((71 : Nat) : Int)) :=
  C1_rate_limit_nth_call "user" "api" (List.replicate 70 0) 59 0 71
    (by decide) (by decide) (by decide)

/-- C2: on a transport error check_rate_limit fails open: the exception
is caught, the request is allowed, remaining is reported as the full
base limit (not base plus burst), and the counter store is untouched. -/
theorem C2_rate_limit_fail_open (cfg : RateConfig) (identifier endpoint : String)
    (now : Nat) (st : CounterStore) :
    check_rate_limit cfg false identifier endpoint now st =
      ⟨true, cfg.rate_limit_rpm, st, []⟩ :=
  rfl

/-- C3: when the backing store raises, the generic operations catch the
exception: get reports a miss and set, delete and exists report false,
leaving the store unchanged. -/
theorem C3_kv_operations_never_raise (st : RStore) (now : Nat) (key v : String)
    (ttl : Option Nat) :
    RedisClient.get false st now key = none ∧
    RedisClient.set false st now key v ttl = (false, st) ∧
    RedisClient.delete false st key = (false, st) ∧
    RedisClient.existsQ false st now key = false :=
  ⟨rfl, rfl, rfl, rfl⟩

/-- C5: a reachable check_rate_limit call issues an explicit 60-second
EXPIRE on the window key iff the post-increment counter equals 1, and
any expiry command it issues is exactly that one, so later increments in
the same window never re-set or extend the expiry. -/
theorem C5_expire_iff_first_increment (cfg : RateConfig) (identifier endpoint : String)
    (now : Nat) (st : CounterStore) :
    (RCmd.expire (rateKey identifier endpoint now) 60 ∈
        (check_rate_limit cfg true identifier endpoint now st).trace ↔
      getCounter st (rateKey identifier endpoint now) + 1 = 1) ∧
    ∀ k s, RCmd.expire k s ∈ (check_rate_limit cfg true identifier endpoint now st).trace →
      k = rateKey identifier endpoint now ∧ s = 60 := by
  rw [check_rate_limit_up]
  constructor
  · by_cases h : getCounter st (rateKey identifier endpoint now) + 1 = 1 <;> simp [h]
  · intro k s hk
    by_cases h : getCounter st (rateKey identifier endpoint now) + 1 = 1 <;>
      simp [h] at hk
    exact ⟨hk.1, hk.2⟩

/-- Witness for C5: the first call of a window issues the 60-second
expiry, and that expiry names the window key with 60 seconds. -/
theorem C5_expire_iff_first_increment_witness :
    RCmd.expire (rateKey "user" "api" 0) 60 ∈
      (check_rate_limit defaultRateConfig true "user" "api" 0 []).trace ∧
    (rateKey "user" "api" 0 = rateKey "user" "api" 0 ∧ (60 : Nat) = 60) := by
  refine ⟨?_, ?_⟩
  · exact (C5_expire_iff_first_increment defaultRateConfig "user" "api" 0 []).1.mpr
      (by decide)
  · exact (C5_expire_iff_first_increment defaultRateConfig "user" "api" 0 []).2
      (rateKey "user" "api" 0) 60
      ((C5_expire_iff_first_increment defaultRateConfig "user" "api" 0 []).1.mpr
        (by decide))

/-- C6: caching a conversation snapshot and then successfully
invalidating it makes the next read a miss, even at a time before the
snapshot's TTL would have elapsed. -/
theorem C6_invalidate_then_miss (st0 : RStore) (t1 t3 : Nat) (conversation_id : Int)
    (messages : List Int) (_h : t3 < t1 + ttl_conversations) :
    (cache_conversation true st0 t1 conversation_id messages).1 = true ∧
    (invalidate_conversation true
        (cache_conversation true st0 t1 conversation_id messages).2 conversation_id).1
      = true ∧
    get_cached_conversation true
        (invalidate_conversation true
          (cache_conversation true st0 t1 conversation_id messages).2 conversation_id).2
        t3 conversation_id = none := by
  have hset : cache_conversation true st0 t1 conversation_id messages =
      (true, setexRaw st0 t1 (convKey conversation_id) 600 (json_dumps messages)) := by
    simp [cache_conversation, RedisClient.set, truthyNat, ttl_conversations]
  refine ⟨by rw [hset], ?_, ?_⟩
  · rw [hset]
    simp [invalidate_conversation, RedisClient.delete, delRaw, setexRaw, countKey,
      countKey_removeKey]
  · rw [hset]
    simp [invalidate_conversation, RedisClient.delete, delRaw, setexRaw,
      get_cached_conversation, RedisClient.get, getRaw, removeKey, lookupB_removeKey]

/-- Witness for C6: a concrete cache, invalidate, read sequence. -/
theorem C6_invalidate_then_miss_witness :
    (cache_conversation true [] 0 1 [1, 2]).1 = true ∧
    (invalidate_conversation true (cache_conversation true [] 0 1 [1, 2]).2 1).1 = true ∧
    get_cached_conversation true
        (invalidate_conversation true (cache_conversation true [] 0 1 [1, 2]).2 1).2
        10 1 = none :=
  C6_invalidate_then_miss [] 0 10 1 [1, 2] (by decide)

/-! ## Claims about the search index -/

/-- C4: on any transport or query error the query operations return
their empty degraded value: zero total and no hits for message search
and conversation search, the empty list for suggestions. -/
theorem C4_search_fail_closed (textMatch titleMatch : String → String → Bool)
    (st : ESState) (query pfx : String) (use_case_id conversation_id : Option Int)
    (role from_date to_date : Option String) (size fromPos : Nat) :
    search_messages false textMatch st query use_case_id conversation_id role
        from_date to_date size fromPos = ⟨0, []⟩ ∧
    search_conversations false titleMatch st query use_case_id size = ⟨0, []⟩ ∧
    suggest_conversations false st pfx size = [] :=
  ⟨rfl, rfl, rfl⟩

/-- A message search whose truthy conversation filter no stored message
satisfies returns the empty result. -/
theorem search_messages_filtered_out (textMatch : String → String → Bool)
    (st : ESState) (query : String) (use_case_id : Option Int) (conversation_id : Int)
    (role from_date to_date : Option String) (size fromPos : Nat)
    (hid : conversation_id ≠ 0)
    (hmsgs : ∀ d ∈ st.messages, d.conversation_id ≠ conversation_id) :
    search_messages true textMatch st query use_case_id (some conversation_id)
      role from_date to_date size fromPos = ⟨0, []⟩ := by
  have hclause : Clause.termConversation conversation_id ∈
      buildMsgFilters use_case_id (some conversation_id) role from_date to_date := by
    simp [buildMsgFilters, truthyInt, hid]
  have hfilter : st.messages.filter
      (msgPred textMatch query
        (buildMsgFilters use_case_id (some conversation_id) role from_date to_date))
      = [] := by
    refine List.filter_eq_nil_iff.mpr ?_
    intro d hd hpd
    simp only [msgPred, Bool.and_eq_true, List.all_eq_true] at hpd
    have hc := hpd.2 _ hclause
    simp only [evalClause, beq_iff_eq] at hc
    exact hmsgs d hd hc
  simp [search_messages, hfilter, sortBy]

/-- C7 (amended, conversation id nonzero): delete_conversation reports
success, removes the conversation document first and then every message
document carrying that conversation_id via the filtered bulk delete, and
a subsequent search_messages with that conversation_id filter returns
zero hits. -/
theorem C7_delete_cascade_then_zero_hits (textMatch : String → String → Bool)
    (st : ESState) (conversation_id : Int) (query : String)
    (use_case_id : Option Int) (role from_date to_date : Option String)
    (size fromPos : Nat) (hid : conversation_id ≠ 0) :
    (delete_conversation true st conversation_id).1 = true ∧
    (delete_conversation true st conversation_id).2.1 =
      ⟨st.messages.filter (fun m => m.conversation_id != conversation_id),
       st.conversations.filter (fun c => c.conversation_id != conversation_id)⟩ ∧
    (delete_conversation true st conversation_id).2.2 =
      [ESCmd.deleteDoc "conversations" conversation_id,
       ESCmd.deleteByQueryTerm "messages" "conversation_id" conversation_id] ∧
    search_messages true textMatch (delete_conversation true st conversation_id).2.1
      query use_case_id (some conversation_id) role from_date to_date size fromPos
      = ⟨0, []⟩ := by
  refine ⟨rfl, rfl, rfl, ?_⟩
  refine search_messages_filtered_out textMatch _ query use_case_id conversation_id
    role from_date to_date size fromPos hid ?_
  intro d hd
  have hd2 : d ∈ st.messages.filter (fun m => m.conversation_id != conversation_id) := hd
  have := (List.mem_filter.mp hd2).2
  simpa using this

/-- Witness for C7's amended theorem at a concrete state and id. -/
theorem C7_delete_cascade_then_zero_hits_witness :
    (delete_conversation true
        (ESState.mk [⟨1, 5, 7, "user", "hello", "2024-01-01T00:00:00"⟩]
          [⟨5, 7, "Onboarding help", "2024-01-01T00:00:00", "2024-01-02T00:00:00", 1⟩]) 5).1
      = true ∧
    (delete_conversation true
        (ESState.mk [⟨1, 5, 7, "user", "hello", "2024-01-01T00:00:00"⟩]
          [⟨5, 7, "Onboarding help", "2024-01-01T00:00:00", "2024-01-02T00:00:00", 1⟩]) 5).2.1
      = ⟨([⟨1, 5, 7, "user", "hello", "2024-01-01T00:00:00"⟩] : List MsgDoc).filter
            (fun m => m.conversation_id != 5),
         ([⟨5, 7, "Onboarding help", "2024-01-01T00:00:00", "2024-01-02T00:00:00", 1⟩] :
            List ConvDoc).filter (fun c => c.conversation_id != 5)⟩ ∧
    (delete_conversation true
        (ESState.mk [⟨1, 5, 7, "user", "hello", "2024-01-01T00:00:00"⟩]
          [⟨5, 7, "Onboarding help", "2024-01-01T00:00:00", "2024-01-02T00:00:00", 1⟩]) 5).2.2
      = [ESCmd.deleteDoc "conversations" 5,
         ESCmd.deleteByQueryTerm "messages" "conversation_id" 5] ∧
    search_messages true (fun _ _ => true)
        (delete_conversation true
          (ESState.mk [⟨1, 5, 7, "user", "hello", "2024-01-01T00:00:00"⟩]
            [⟨5, 7, "Onboarding help", "2024-01-01T00:00:00", "2024-01-02T00:00:00", 1⟩]) 5).2.1
        "" none (some 5) none none none 20 0 = ⟨0, []⟩ :=
  C7_delete_cascade_then_zero_hits (fun _ _ => true)
    (ESState.mk [⟨1, 5, 7, "user", "hello", "2024-01-01T00:00:00"⟩]
      [⟨5, 7, "Onboarding help", "2024-01-01T00:00:00", "2024-01-02T00:00:00", 1⟩])
    5 "" none none none none 20 0 (by decide)

/-- C7 counterexample: with conversation id 0 the subsequent search
drops its falsy conversation filter, so a message of a different
conversation that survives the delete is still returned: one hit, not
zero. -/
theorem C7_counterexample :
    search_messages true (fun _ _ => true)
        (delete_conversation true
          (ESState.mk [⟨1, 1, 7, "user", "hello", "2024-01-01T00:00:00"⟩] []) 0).2.1
        "" none (some 0) none none none 20 0
      ≠ ⟨0, []⟩ := by
  decide

/-- A document just upserted is in the collection. -/
theorem mem_upsertMsg_self (docs : List MsgDoc) (d : MsgDoc) :
    d ∈ upsertMsg docs d := by
  unfold upsertMsg
  by_cases h : docs.any (fun e => e.id == d.id)
  · simp only [h, if_true]
    obtain ⟨e, he, hid⟩ := List.any_eq_true.mp h
    exact List.mem_map.mpr ⟨e, he, by simp [hid]⟩
  · simp [h]

/-- Upserting a document with a different id preserves membership. -/
theorem mem_upsertMsg_of_ne (docs : List MsgDoc) (d x : MsgDoc) (hx : x ∈ docs)
    (hne : x.id ≠ d.id) : x ∈ upsertMsg docs d := by
  unfold upsertMsg
  by_cases h : docs.any (fun e => e.id == d.id)
  · simp only [h, if_true]
    refine List.mem_map.mpr ⟨x, hx, ?_⟩
    simp [beq_iff_eq, hne]
  · simp [h, hx]

/-- Folding upserts whose row ids all differ from a present document's
id preserves that document. -/
theorem mem_foldl_upsert_of_ne (ms : List BulkMsg) (acc : List MsgDoc) (x : MsgDoc)
    (hx : x ∈ acc) (hne : ∀ m ∈ ms, x.id ≠ m.id) :
    x ∈ ms.foldl (fun a m => upsertMsg a m.toDoc) acc := by
  induction ms generalizing acc with
  | nil => simpa using hx
  | cons m rest ih =>
    simp only [List.foldl_cons]
    refine ih _ ?_ (fun u hu => hne u (by simp [hu]))
    exact mem_upsertMsg_of_ne acc m.toDoc x hx (hne m (by simp))

/-- With pairwise-distinct row ids, every row's document is present
after the bulk fold. -/
theorem mem_foldl_upsert (ms : List BulkMsg) :
    ∀ (acc : List MsgDoc), ms.Pairwise (fun a b => a.id ≠ b.id) →
      ∀ m ∈ ms, m.toDoc ∈ ms.foldl (fun a r => upsertMsg a r.toDoc) acc := by
  induction ms with
  | nil =>
    intro acc _ m hm
    simp at hm
  | cons r rest ih =>
    intro acc hpw m hm
    simp only [List.foldl_cons]
    rcases List.mem_cons.mp hm with h | h
    · subst h
      refine mem_foldl_upsert_of_ne rest _ _ (mem_upsertMsg_self acc m.toDoc) ?_
      intro u hu
      exact (List.pairwise_cons.mp hpw).1 u hu
    · exact ih _ (List.pairwise_cons.mp hpw).2 m h

/-- The rows accepted and rejected by the engine partition the batch. -/
theorem length_filter_indexable_partition (ms : List BulkMsg) :
    (ms.filter (fun m => m.indexable)).length +
      (ms.filter (fun m => !m.indexable)).length = ms.length := by
  induction ms with
  | nil => rfl
  | cons m rest ih =>
    by_cases h : m.indexable <;> simp [List.filter_cons, h] <;> omega

/-- C8: bulk indexing returns (success_count, error_count): (N, 0) when
every one of the N rows is well-formed; (N - 1, 1) when exactly one row
is malformed, and then every other row's document is still indexed — a
per-document failure never aborts the rest of the batch. -/
theorem C8_bulk_index_counts (docs : List MsgDoc) (messages : List BulkMsg)
    (hdistinct : messages.Pairwise (fun a b => a.id ≠ b.id)) :
    (messages.all (fun m => m.indexable) = true →
      (bulk_index_messages true docs messages).1 = (messages.length, 0)) ∧
    ((messages.filter (fun m => !m.indexable)).length = 1 →
      (bulk_index_messages true docs messages).1 = (messages.length - 1, 1)) ∧
    (∀ m ∈ messages, m.indexable = true →
      m.toDoc ∈ (bulk_index_messages true docs messages).2) := by
  by_cases hemp : messages.isEmpty
  · have hnil : messages = [] := List.isEmpty_iff.mp hemp
    subst hnil
    refine ⟨fun _ => rfl, fun hc => by simp at hc, fun m hm => by simp at hm⟩
  · have hne : messages.isEmpty = false := by
      simpa using hemp
    refine ⟨?_, ?_, ?_⟩
    · intro hall
      have hok : messages.filter (fun m => m.indexable) = messages :=
        List.filter_eq_self.mpr (List.all_eq_true.mp hall)
      have hbad : (messages.filter (fun m => !m.indexable)).length = 0 := by
        have := length_filter_indexable_partition messages
        rw [hok] at this
        omega
      simp [bulk_index_messages, hne, hok, hbad]
    · intro hc
      have hpart := length_filter_indexable_partition messages
      simp only [bulk_index_messages, hne, Bool.false_eq_true, if_false, if_true]
      have hok : (messages.filter (fun m => m.indexable)).length = messages.length - 1 := by
        omega
      simp [hok, hc]
    · intro m hm hind
      have hmem : m ∈ messages.filter (fun m => m.indexable) :=
        List.mem_filter.mpr ⟨hm, hind⟩
      have hpw : (messages.filter (fun m => m.indexable)).Pairwise
          (fun a b => a.id ≠ b.id) :=
        hdistinct.sublist (List.filter_sublist messages)
      have := mem_foldl_upsert (messages.filter (fun m => m.indexable)) docs hpw m hmem
      simpa [bulk_index_messages, hne] using this

/-- Witness for C8: a three-row batch with one malformed row returns
(2, 1) and the last row's document is indexed. -/
theorem C8_bulk_index_counts_witness :
    (bulk_index_messages true []
        [⟨1, 1, 1, "user", "a", "2024-01-01", true⟩,
         ⟨2, 1, 1, "assistant", "b", "2024-01-02", false⟩,
         ⟨3, 1, 1, "user", "c", "2024-01-03", true⟩]).1 = (3 - 1, 1) ∧
    BulkMsg.toDoc ⟨3, 1, 1, "user", "c", "2024-01-03", true⟩ ∈
      (bulk_index_messages true []
        [⟨1, 1, 1, "user", "a", "2024-01-01", true⟩,
         ⟨2, 1, 1, "assistant", "b", "2024-01-02", false⟩,
         ⟨3, 1, 1, "user", "c", "2024-01-03", true⟩]).2 :=
  ⟨(C8_bulk_index_counts []
      [⟨1, 1, 1, "user", "a", "2024-01-01", true⟩,
       ⟨2, 1, 1, "assistant", "b", "2024-01-02", false⟩,
       ⟨3, 1, 1, "user", "c", "2024-01-03", true⟩] (by decide)).2.1 (by decide),
   (C8_bulk_index_counts []
      [⟨1, 1, 1, "user", "a", "2024-01-01", true⟩,
       ⟨2, 1, 1, "assistant", "b", "2024-01-02", false⟩,
       ⟨3, 1, 1, "user", "c", "2024-01-03", true⟩] (by decide)).2.2
     ⟨3, 1, 1, "user", "c", "2024-01-03", true⟩ (by decide) (by decide)⟩

set_option maxRecDepth 4000

/-- C9 counterexample: at prompt "a" and context "b" the key the code
derives is not "llm:response:" followed by the MD5 digest of the plain
concatenation "ab": the code hashes "a:b", inserting a colon separator. -/
theorem C9_counterexample :
    llmKey "a" "b" ≠ "llm:response:" ++ md5hex (strBytes ("a" ++ "b")) := by
  decide

/-- C9 (amended): both LLM cache operations address the single
deterministic key "llm:response:" followed by the hex MD5 digest of
prompt ++ ":" ++ context, and storing then reading with the same prompt
and context returns the stored response. -/
theorem C9_llm_cache_key (st : RStore) (now : Nat) (prompt ctx response : String) :
    llmKey prompt ctx =
      "llm:response:" ++ md5hex (strBytes (prompt ++ ":" ++ ctx)) ∧
    cache_llm_response true st now prompt ctx response =
      RedisClient.set true st now (llmKey prompt ctx) response (some ttl_llm_responses) ∧
    get_cached_llm_response true st now prompt ctx =
      RedisClient.get true st now (llmKey prompt ctx) ∧
    get_cached_llm_response true (cache_llm_response true st now prompt ctx response).2
      now prompt ctx = some response := by
  refine ⟨rfl, rfl, rfl, ?_⟩
  have hlive : now < now + 3600 := by omega
  simp [cache_llm_response, get_cached_llm_response, RedisClient.set, RedisClient.get,
    truthyNat, ttl_llm_responses, setexRaw, getRaw, lookupB, Binding.live, hlive]

/-- C10: a falsy exact-match filter argument (the integer 0, the empty
string for role) is dropped: the filter list and the three query
operations behave exactly as if the argument had been omitted. -/
theorem C10_falsy_filter_arguments_dropped (textMatch titleMatch : String → String → Bool)
    (st : ESState) (query : String) (use_case_id conversation_id : Option Int)
    (role from_date to_date : Option String) (size fromPos : Nat) :
    buildMsgFilters (some 0) conversation_id role from_date to_date =
      buildMsgFilters none conversation_id role from_date to_date ∧
    buildMsgFilters use_case_id (some 0) role from_date to_date =
      buildMsgFilters use_case_id none role from_date to_date ∧
    buildMsgFilters use_case_id conversation_id (some "") from_date to_date =
      buildMsgFilters use_case_id conversation_id none from_date to_date ∧
    search_messages true textMatch st query (some 0) (some 0) (some "") from_date to_date
        size fromPos =
      search_messages true textMatch st query none none none from_date to_date
        size fromPos ∧
    search_conversations true titleMatch st query (some 0) size =
      search_conversations true titleMatch st query none size ∧
    get_message_stats true st (some 0) = get_message_stats true st none := by
  refine ⟨?_, ?_, ?_, ?_, ?_, ?_⟩ <;>
    simp [buildMsgFilters, search_messages, search_conversations, get_message_stats,
      truthyInt, truthyStr]

end DataPlane
